import Mathlib

/-!
Verification development for the homework status bot (`homework.py`).

The program polls a review API, validates the JSON response, parses the
first homework record into a notification string, and sends it through a
messaging bot, deduplicating repeated error notifications across loop
iterations.  Python values that can appear in a parsed JSON body (plus
`None`/booleans) are embedded as `PyVal`; raised Python exceptions are
embedded as the `Except` error channel with an `Err` taxonomy mirroring
the exception classes the program distinguishes.
-/

namespace Homework

/-- A Python value as it can occur in a parsed JSON body: `None`, a bool,
an int, a str, a list, or a dict with string keys. -/
inductive PyVal : Type where
  | pyNone : PyVal
  | pyBool : Bool → PyVal
  | pyInt : Int → PyVal
  | pyStr : String → PyVal
  | pyList : List PyVal → PyVal
  | pyDict : List (String × PyVal) → PyVal

/-- Lookup in a Python dict (`d.get(key)` / `key in d`), embedded as
first-match association-list lookup. -/
def pyLookup : List (String × PyVal) → String → Option PyVal
  | [], _ => none
  | (k, v) :: rest, key => if k = key then some v else pyLookup rest key

/-- Python truthiness (`bool(v)`) on embedded values: `None`, `False`,
`0`, the empty string, the empty list and the empty dict are falsy. -/
def pyFalsy : PyVal → Bool
  | PyVal.pyNone => true
  | PyVal.pyBool b => !b
  | PyVal.pyInt n => n == 0
  | PyVal.pyStr s => s == ""
  | PyVal.pyList xs => xs.isEmpty
  | PyVal.pyDict kvs => kvs.isEmpty

/-- Truthiness of a `dict.get` result: an absent key yields Python `None`,
which is falsy. -/
def optFalsy : Option PyVal → Bool
  | none => true
  | some v => pyFalsy v

/-- Truthiness of an optional string (a `dict.get` result on a dict with
string values): absent or empty is falsy. -/
def optStrFalsy : Option String → Bool
  | none => true
  | some s => s.isEmpty

/-- The single-quote character, used by Python `repr` of strings. -/
def sq : String := String.singleton (Char.ofNat 39)

/-- The Python type name of an embedded value. -/
def pyTypeName : PyVal → String
  | PyVal.pyNone => "NoneType"
  | PyVal.pyBool _ => "bool"
  | PyVal.pyInt _ => "int"
  | PyVal.pyStr _ => "str"
  | PyVal.pyList _ => "list"
  | PyVal.pyDict _ => "dict"

mutual

/-- Python `repr` of an embedded value (string escaping inside quoted
strings is not reproduced; the program only ever formats flat values). -/
def pyReprV : PyVal → String
  | PyVal.pyNone => "None"
  | PyVal.pyBool true => "True"
  | PyVal.pyBool false => "False"
  | PyVal.pyInt n => toString n
  | PyVal.pyStr s => sq ++ s ++ sq
  | PyVal.pyList xs => "[" ++ pyReprList xs ++ "]"
  | PyVal.pyDict kvs => "\x7b" ++ pyReprKVs kvs ++ "\x7d"

/-- Comma-separated `repr` of list elements. -/
def pyReprList : List PyVal → String
  | [] => ""
  | [x] => pyReprV x
  | x :: y :: rest => pyReprV x ++ ", " ++ pyReprList (y :: rest)

/-- Comma-separated `repr` of dict items. -/
def pyReprKVs : List (String × PyVal) → String
  | [] => ""
  | [(k, v)] => sq ++ k ++ sq ++ ": " ++ pyReprV v
  | (k, v) :: y :: rest => sq ++ k ++ sq ++ ": " ++ pyReprV v ++ ", " ++ pyReprKVs (y :: rest)

end

/-- Python `str` of an embedded value, as used by f-string interpolation:
the identity on strings, `repr` otherwise. -/
def pyToStr : PyVal → String
  | PyVal.pyStr s => s
  | v => pyReprV v

/-- `RETRY_PERIOD`: the fixed sleep between poll iterations, in seconds.
The sleep itself has no observable effect on the loop state and is not
modelled further. -/
def RETRY_PERIOD : Nat := 600

/-- `ENDPOINT`: the fixed API URL. -/
def ENDPOINT : String := "https://practicum.yandex.ru/api/user_api/homework_statuses/"

/-- `HOMEWORK_VERDICTS`: the fixed status-to-verdict table. -/
def HOMEWORK_VERDICTS : List (String × String) :=
  [("approved", "Работа проверена: ревьюеру всё понравилось. Ура!"),
   ("reviewing", "Работа взята на проверку ревьюером."),
   ("rejected", "Работа проверена: у ревьюера есть замечания.")]

/-- First-match lookup in a string-to-string association list. -/
def lookupStr : List (String × String) → String → Option String
  | [], _ => none
  | (k, v) :: rest, key => if k = key then some v else lookupStr rest key

/-- Modelled from the spec: the repository imports `HomeworkStatusError`,
`KeyError`, `TokenError` and `URLError` from a local `exceptions` module
that is not under `src/`, so the class hierarchy of these exceptions is
not available.  The spec describes the request-failed (`URLError`) and
connection-failed (`ConnectionError`) conditions as distinct, so every
exception kind the program distinguishes is modelled as its own
constructor; in particular `URLError` is not a transport-level
`requests.RequestException`.  `nameError` models Python's
`NameError`/`UnboundLocalError`, which the program never constructs. -/
inductive Err : Type where
  | typeError : String → Err
  | keyError : String → Err
  | homeworkStatusError : String → Err
  | urlError : String → Err
  | connectionError : String → Err
  | attributeError : String → Err
  | nameError : String → Err
deriving DecidableEq

/-- Python `str` of a raised exception: its message. -/
def errStr : Err → String
  | Err.typeError m => m
  | Err.keyError m => m
  | Err.homeworkStatusError m => m
  | Err.urlError m => m
  | Err.connectionError m => m
  | Err.attributeError m => m
  | Err.nameError m => m

/-- Whether an exception is an unbound-reference (`NameError`) condition. -/
def Err.isNameError : Err → Bool
  | Err.nameError _ => true
  | _ => false

/-- Truthiness of an environment variable value (`os.getenv` returns the
string or `None`): absent or empty is falsy. -/
def envFalsy : Option String → Bool
  | none => true
  | some s => s.isEmpty

/-- `check_tokens`: builds the name-to-value table of the three secrets,
collects the names bound to falsy values, and returns that list when it
is non-empty (Python returns the list), or `none` (Python falls through
and returns `None`). -/
def check_tokens (practicumToken telegramToken telegramChatId : Option String) :
    Option (List String) :=
  let source : List (String × Option String) :=
    [("PRACTICUM_TOKEN", practicumToken),
     ("TELEGRAM_TOKEN", telegramToken),
     ("TELEGRAM_CHAT_ID", telegramChatId)]
  let token_list := (source.filter (fun kv => envFalsy kv.2)).map (fun kv => kv.1)
  if token_list.isEmpty then none else some token_list

/-- The list of missing credential names carried by a `check_tokens`
result (`None` carries none). -/
def missingNames : Option (List String) → List String
  | none => []
  | some l => l

/-- A `telegram.error.TelegramError` raised by the messaging client. -/
inductive TelegramError : Type where
  | mk : String → TelegramError

/-- Observable outcome of one `send_message` call: how many delivery
attempts were made, the message that actually reached the client (if
any), which exception (if any) escaped to the caller, and the log lines
written. -/
structure SendOutcome : Type where
  attempts : Nat
  delivered : Option String
  propagated : Option TelegramError
  logLines : List String

/-- `send_message`: logs, makes exactly one delivery attempt through the
bot, and catches `TelegramError`, logging the failure instead of
re-raising it.  The delivery result of `bot.send_message` is the
environment input. -/
def send_message (message : String) (delivery : Except TelegramError Unit) : SendOutcome :=
  match delivery with
  | Except.ok _ => ⟨1, some message, none, ["Отправка сообщения", "Сообщение отправлено"]⟩
  | Except.error _ => ⟨1, none, none, ["Отправка сообщения", "Ошибка отправки сообщения"]⟩

/-- Environment input of one `requests.get` call: whether the transport
layer failed (raising a `requests.RequestException`), and otherwise the
HTTP status code and parsed JSON body. -/
structure HttpOutcome : Type where
  transportFailure : Bool
  statusCode : Nat
  body : PyVal

/-- `params = {'from_date': timestamp}`: the query parameters of one API
request. -/
def requestParams (timestamp : PyVal) : List (String × PyVal) :=
  [("from_date", timestamp)]

/-- Python `str` of the params dict, as interpolated into the
connection-failure message. -/
def paramsStr (timestamp : PyVal) : String :=
  pyReprV (PyVal.pyDict (requestParams timestamp))

/-- `get_api_answer`: a transport failure is caught and re-raised as
`ConnectionError`; a non-`HTTPStatus.OK` status raises `URLError`; on
success the parsed JSON body is returned unvalidated. -/
def get_api_answer (timestamp : PyVal) (o : HttpOutcome) : Except Err PyVal :=
  if o.transportFailure then
    Except.error (Err.connectionError
      ("Сбой запроса к " ++ ENDPOINT ++ " c " ++ paramsStr timestamp))
  else if o.statusCode ≠ 200 then
    Except.error (Err.urlError ("Сбой запроса к " ++ ENDPOINT))
  else
    Except.ok o.body

/-- `check_response`: requires the body to be a dict (`TypeError`
otherwise), then key `homeworks` (`KeyError`), then key `current_date`
(`KeyError`), then that the `homeworks` value is a list (`TypeError`),
and returns the `homeworks` list unchanged. -/
def check_response (response : PyVal) : Except Err (List PyVal) :=
  match response with
  | PyVal.pyDict kvs =>
    if (pyLookup kvs "homeworks").isNone then
      Except.error (Err.keyError "В API-ответе отсутствует ключ \"homeworks\"")
    else if (pyLookup kvs "current_date").isNone then
      Except.error (Err.keyError "В API-ответе отсутствует ключ \"current_date\"")
    else
      match pyLookup kvs "homeworks" with
      | some (PyVal.pyList hs) => Except.ok hs
      | _ => Except.error (Err.typeError
          "Полученная структура данных не соответствует заданной")
  | _ => Except.error (Err.typeError "Структура данных не соответствует заданной")

/-- `HOMEWORK_VERDICTS.get(status)`: a Python dict lookup keyed by an
arbitrary value.  An unhashable key (list or dict) raises `TypeError`; a
hashable key that is not a string of the table simply misses. -/
def verdictLookup (status : PyVal) : Except Err (Option String) :=
  match status with
  | PyVal.pyList _ => Except.error (Err.typeError
      ("unhashable type: " ++ sq ++ "list" ++ sq))
  | PyVal.pyDict _ => Except.error (Err.typeError
      ("unhashable type: " ++ sq ++ "dict" ++ sq))
  | PyVal.pyStr s => Except.ok (lookupStr HOMEWORK_VERDICTS s)
  | _ => Except.ok none

/-- `parse_status`: requires a truthy `homework_name` and a truthy
`status` (each missing/falsy one raises `KeyError` naming the key), looks
the status up in `HOMEWORK_VERDICTS` (a falsy verdict raises
`HomeworkStatusError`), and formats the notification string.  Calling
`.get` on a non-dict record raises `AttributeError`. -/
def parse_status (homework : PyVal) : Except Err String :=
  match homework with
  | PyVal.pyDict kvs =>
    let homework_name := pyLookup kvs "homework_name"
    if optFalsy homework_name then
      Except.error (Err.keyError "Отсутствует ключ \"homework_name\"")
    else
      let status := pyLookup kvs "status"
      if optFalsy status then
        Except.error (Err.keyError "Отсутствует ключ \"status\"")
      else
        match verdictLookup (status.getD PyVal.pyNone) with
        | Except.error e => Except.error e
        | Except.ok verdict =>
          if optStrFalsy verdict then
            Except.error (Err.homeworkStatusError "Неизвестный статус проверки работы")
          else
            Except.ok ("Изменился статус проверки работы \"" ++
              pyToStr (homework_name.getD PyVal.pyNone) ++ "\". " ++ verdict.getD "")
  | _ => Except.error (Err.attributeError
      (sq ++ pyTypeName homework ++ sq ++ " object has no attribute " ++ sq ++ "get" ++ sq))

/-- A notification handed to `send_message` inside the poll loop, tagged
by its call site: a homework-status notification from the success branch,
or an error notification from the `except` branch. -/
inductive Notif : Type where
  | status : String → Notif
  | error : String → Notif

/-- The loop-local mutable state of `main`: the cursor `timestamp` and
the deduplication string `start_error_message`.  The cursor is a `PyVal`
because the program stores `response['current_date']` into it without a
type check. -/
structure LoopState : Type where
  timestamp : PyVal
  lastError : String

/-- `response['current_date']`: dict subscription, raising `KeyError` on
an absent key and `TypeError` on a non-dict. -/
def cursorOf (response : PyVal) : Except Err PyVal :=
  match response with
  | PyVal.pyDict kvs =>
    match pyLookup kvs "current_date" with
    | some v => Except.ok v
    | none => Except.error (Err.keyError (sq ++ "current_date" ++ sq))
  | _ => Except.error (Err.typeError
      (sq ++ pyTypeName response ++ sq ++ " object is not subscriptable"))

/-- The `if not homework: ... else: ...` branch of the loop body: an
empty homeworks list only logs, a non-empty one parses the status of
`homework[0]` and sends it. -/
def statusNotifs (homework : List PyVal) : Except Err (List Notif) :=
  if homework.isEmpty then
    Except.ok []
  else
    match parse_status (homework.headD PyVal.pyNone) with
    | Except.error e => Except.error e
    | Except.ok homework_status => Except.ok [Notif.status homework_status]

/-- The `try` block of one loop iteration, given the outcome of
`get_api_answer` as input: validate the response, parse and notify on a
non-empty homeworks list, then read the new cursor from
`response['current_date']`.  Returns the new cursor together with the
status notifications sent, or the first exception raised. -/
def tryBody (api : Except Err PyVal) : Except Err (PyVal × List Notif) :=
  match api with
  | Except.error e => Except.error e
  | Except.ok response =>
    match check_response response with
    | Except.error e => Except.error e
    | Except.ok homework =>
      match statusNotifs homework with
      | Except.error e => Except.error e
      | Except.ok ns =>
        match cursorOf response with
        | Except.error e => Except.error e
        | Except.ok ts => Except.ok (ts, ns)

/-- The error-handler message for an iteration whose `try` block raised,
if it did: `f'Сбой в работе программы: {error}'`. -/
def bodyErrMsg (api : Except Err PyVal) : Option String :=
  match tryBody api with
  | Except.error e => some ("Сбой в работе программы: " ++ errStr e)
  | Except.ok _ => none

/-- One iteration of the `while True` loop of `main`: run the `try`
block; on success commit the new cursor, on an exception build the
failure message and send it only when it differs from
`start_error_message`, recording it there.  Returns the new state and
the notifications sent this iteration. -/
def iterate (st : LoopState) (api : Except Err PyVal) : LoopState × List Notif :=
  match tryBody api with
  | Except.ok (ts, ns) => ({ st with timestamp := ts }, ns)
  | Except.error e =>
    let message := "Сбой в работе программы: " ++ errStr e
    if st.lastError ≠ message then
      ({ st with lastError := message }, [Notif.error message])
    else
      (st, [])

/-- A finite run of the poll loop: fold `iterate` over a list of
per-iteration `get_api_answer` outcomes, collecting all notifications. -/
def runLoop : LoopState → List (Except Err PyVal) → LoopState × List Notif
  | st, [] => (st, [])
  | st, a :: rest =>
    ((runLoop (iterate st a).1 rest).1,
     (iterate st a).2 ++ (runLoop (iterate st a).1 rest).2)

/-- The texts of the error notifications of a notification sequence, in
order. -/
def errorTexts : List Notif → List String
  | [] => []
  | Notif.error m :: rest => m :: errorTexts rest
  | Notif.status _ :: rest => errorTexts rest

/-- `errorTexts` distributes over append. -/
theorem errorTexts_append (l1 l2 : List Notif) :
    errorTexts (l1 ++ l2) = errorTexts l1 ++ errorTexts l2 := by
  induction l1 with
  | nil => rfl
  | cons n rest ih => cases n <;> simp [errorTexts, ih]

/-- A successful `try` block sends no error notifications. -/
theorem statusNotifs_ok_errorTexts (homework : List PyVal) (ns : List Notif)
    (h : statusNotifs homework = Except.ok ns) : errorTexts ns = [] := by
  unfold statusNotifs at h
  by_cases he : homework.isEmpty = true
  · rw [if_pos he] at h
    injection h with h
    rw [← h]
    rfl
  · rw [if_neg he] at h
    cases hp : parse_status (homework.headD PyVal.pyNone) with
    | error e => rw [hp] at h; cases h
    | ok s =>
      rw [hp] at h
      injection h with h
      rw [← h]
      rfl

/-- A successful `try` block sends no error notifications. -/
theorem tryBody_ok_errorTexts (a : Except Err PyVal) (p : PyVal × List Notif)
    (h : tryBody a = Except.ok p) : errorTexts p.2 = [] := by
  unfold tryBody at h
  cases a with
  | error e => cases h
  | ok response =>
    dsimp only at h
    cases hc : check_response response with
    | error e => rw [hc] at h; cases h
    | ok homework =>
      rw [hc] at h
      dsimp only at h
      cases hn : statusNotifs homework with
      | error e => rw [hn] at h; cases h
      | ok ns =>
        rw [hn] at h
        dsimp only at h
        cases hcur : cursorOf response with
        | error e => rw [hcur] at h; cases h
        | ok ts =>
          rw [hcur] at h
          injection h with h
          rw [← h]
          exact statusNotifs_ok_errorTexts homework ns hn

/-- Each iteration either sends no error notification and keeps the
deduplication string, or sends exactly one whose text differs from the
previous one and records it. -/
theorem iterate_err_shape (st : LoopState) (a : Except Err PyVal) :
    ((iterate st a).1.lastError = st.lastError ∧ errorTexts (iterate st a).2 = []) ∨
    (∃ m, st.lastError ≠ m ∧ (iterate st a).1.lastError = m ∧
      errorTexts (iterate st a).2 = [m]) := by
  unfold iterate
  cases h : tryBody a with
  | ok p =>
    left
    obtain ⟨ts, ns⟩ := p
    exact ⟨rfl, tryBody_ok_errorTexts a (ts, ns) h⟩
  | error e =>
    dsimp only
    by_cases hne : st.lastError = "Сбой в работе программы: " ++ errStr e
    · left
      rw [if_neg (by simp [hne])]
      exact ⟨rfl, rfl⟩
    · right
      refine ⟨"Сбой в работе программы: " ++ errStr e, hne, ?_, ?_⟩
      · rw [if_pos hne]
      · rw [if_pos hne]
        rfl

/-- An iteration whose body raised always leaves the handler message in
`start_error_message`, whether or not it notified. -/
theorem iterate_fail_lastError (st : LoopState) (a : Except Err PyVal) (m : String)
    (h : bodyErrMsg a = some m) : (iterate st a).1.lastError = m := by
  unfold bodyErrMsg at h
  unfold iterate
  cases htb : tryBody a with
  | ok p => rw [htb] at h; cases h
  | error e =>
    rw [htb] at h
    injection h with h
    dsimp only
    rw [h]
    by_cases hne : st.lastError = m
    · simp [hne]
    · simp [hne]

/-- An iteration whose body raised a message different from the stored
one notifies once and keeps the cursor. -/
theorem iterate_fail_new (st : LoopState) (a : Except Err PyVal) (m : String)
    (h : bodyErrMsg a = some m) (hne : st.lastError ≠ m) :
    iterate st a = (⟨st.timestamp, m⟩, [Notif.error m]) := by
  unfold bodyErrMsg at h
  unfold iterate
  cases htb : tryBody a with
  | ok p => rw [htb] at h; cases h
  | error e =>
    rw [htb] at h
    injection h with h
    dsimp only
    rw [h]
    simp [hne]

/-- An iteration whose body raised the stored message sends nothing and
leaves the state unchanged. -/
theorem iterate_fail_dup (st : LoopState) (a : Except Err PyVal) (m : String)
    (h : bodyErrMsg a = some m) (heq : st.lastError = m) :
    iterate st a = (st, []) := by
  unfold bodyErrMsg at h
  unfold iterate
  cases htb : tryBody a with
  | ok p => rw [htb] at h; cases h
  | error e =>
    rw [htb] at h
    injection h with h
    dsimp only
    rw [h]
    simp [heq]

/-- Invariant of a loop run: the error-notification texts form a chain of
pairwise-different consecutive values starting after the stored
deduplication string, and the final stored string is the last text sent
(or the initial one). -/
theorem runLoop_chain (apis : List (Except Err PyVal)) : ∀ st : LoopState,
    List.Chain Ne st.lastError (errorTexts (runLoop st apis).2) ∧
    (runLoop st apis).1.lastError =
      (errorTexts (runLoop st apis).2).getLastD st.lastError := by
  induction apis with
  | nil =>
    intro st
    exact ⟨List.Chain.nil, rfl⟩
  | cons a rest ih =>
    intro st
    have hrec := ih (iterate st a).1
    have hfst : (runLoop st (a :: rest)).1 = (runLoop (iterate st a).1 rest).1 := rfl
    have hsnd : (runLoop st (a :: rest)).2 =
        (iterate st a).2 ++ (runLoop (iterate st a).1 rest).2 := rfl
    obtain ⟨h1, h2⟩ | ⟨m, hne, h1, h2⟩ := iterate_err_shape st a
    · constructor
      · rw [hsnd, errorTexts_append, h2, List.nil_append]
        rw [h1] at hrec
        exact hrec.1
      · rw [hfst, hsnd, errorTexts_append, h2, List.nil_append]
        rw [h1] at hrec
        exact hrec.2
    · constructor
      · rw [hsnd, errorTexts_append, h2, List.cons_append, List.nil_append]
        rw [h1] at hrec
        exact List.Chain.cons hne hrec.1
      · rw [hfst, hsnd, errorTexts_append, h2, List.cons_append, List.nil_append,
          List.getLastD_cons]
        rw [h1] at hrec
        exact hrec.2

/-- Claim C4: `check_response` checks, in exactly this order: the body is
a dict (else a wrong-data-shape `TypeError`), key `homeworks` is present
(else a missing-key `KeyError`), key `current_date` is present (else a
missing-key `KeyError`), and the `homeworks` value is a list (else a
wrong-data-shape `TypeError`); otherwise it returns the `homeworks` list
unchanged, the empty list included. -/
theorem check_response_spec (r : PyVal) :
    ((∀ kvs, r ≠ PyVal.pyDict kvs) →
      check_response r =
        Except.error (Err.typeError "Структура данных не соответствует заданной")) ∧
    (∀ kvs, r = PyVal.pyDict kvs → pyLookup kvs "homeworks" = none →
      check_response r =
        Except.error (Err.keyError "В API-ответе отсутствует ключ \"homeworks\"")) ∧
    (∀ kvs hv, r = PyVal.pyDict kvs → pyLookup kvs "homeworks" = some hv →
      pyLookup kvs "current_date" = none →
      check_response r =
        Except.error (Err.keyError "В API-ответе отсутствует ключ \"current_date\"")) ∧
    (∀ kvs hv cv, r = PyVal.pyDict kvs → pyLookup kvs "homeworks" = some hv →
      pyLookup kvs "current_date" = some cv → (∀ l, hv ≠ PyVal.pyList l) →
      check_response r =
        Except.error (Err.typeError "Полученная структура данных не соответствует заданной")) ∧
    (∀ kvs l cv, r = PyVal.pyDict kvs → pyLookup kvs "homeworks" = some (PyVal.pyList l) →
      pyLookup kvs "current_date" = some cv →
      check_response r = Except.ok l) := by
  refine ⟨?_, ?_, ?_, ?_, ?_⟩
  · intro h
    cases r with
    | pyDict kvs => exact absurd rfl (h kvs)
    | pyNone => rfl
    | pyBool b => rfl
    | pyInt n => rfl
    | pyStr s => rfl
    | pyList xs => rfl
  · intro kvs hr hnone
    subst hr
    simp [check_response, hnone]
  · intro kvs hv hr hh hc
    subst hr
    simp [check_response, hh, hc]
  · intro kvs hv cv hr hh hc hnl
    subst hr
    cases hv with
    | pyList l => exact absurd rfl (hnl l)
    | pyNone => simp [check_response, hh, hc]
    | pyBool b => simp [check_response, hh, hc]
    | pyInt n => simp [check_response, hh, hc]
    | pyStr s => simp [check_response, hh, hc]
    | pyDict d => simp [check_response, hh, hc]
  · intro kvs l cv hr hh hc
    subst hr
    simp [check_response, hh, hc]

/-- Witness for C4 at concrete inputs: a body with an empty homeworks
list passes validation and returns the empty list. -/
theorem check_response_spec_witness :
    check_response (PyVal.pyDict [("homeworks", PyVal.pyList []), ("current_date", PyVal.pyInt 1)]) =
      Except.ok [] :=
  (check_response_spec _).2.2.2.2 _ [] (PyVal.pyInt 1) rfl rfl rfl

/-- Counterexample to C5 as stated: in the record
`{"homework_name": "hw1", "status": ["approved"]}` the status is present,
truthy, and not one of the verdict-table keys, yet `parse_status` fails
with the `TypeError` that `HOMEWORK_VERDICTS.get` raises on an unhashable
key, not with the unknown-status condition. -/
theorem parse_status_unhashable_counterexample :
    pyFalsy (PyVal.pyList [PyVal.pyStr "approved"]) = false ∧
    parse_status (PyVal.pyDict
        [("homework_name", PyVal.pyStr "hw1"), ("status", PyVal.pyList [PyVal.pyStr "approved"])]) =
      Except.error (Err.typeError ("unhashable type: " ++ sq ++ "list" ++ sq)) ∧
    (∀ m, Err.typeError ("unhashable type: " ++ sq ++ "list" ++ sq) ≠
      Err.homeworkStatusError m) := by
  refine ⟨rfl, rfl, ?_⟩
  intro m h
  cases h

/-- Claim C5 (amended): on a record, a falsy (absent or empty)
`homework_name` fails with a missing-key condition naming
`homework_name`; else a falsy `status` fails with a missing-key condition
naming `status`; else a non-empty string status that is not one of the
verdict-table keys (exactly `approved`, `reviewing`, `rejected`) fails
with the unknown-status condition, which is distinct from the missing-key
condition.  (A truthy unhashable status instead fails with the lookup
`TypeError`, see the counterexample.) -/
theorem parse_status_error_conditions (kvs : List (String × PyVal)) :
    (optFalsy (pyLookup kvs "homework_name") = true →
      parse_status (PyVal.pyDict kvs) =
        Except.error (Err.keyError "Отсутствует ключ \"homework_name\"")) ∧
    (optFalsy (pyLookup kvs "homework_name") = false →
      optFalsy (pyLookup kvs "status") = true →
      parse_status (PyVal.pyDict kvs) =
        Except.error (Err.keyError "Отсутствует ключ \"status\"")) ∧
    (∀ s, optFalsy (pyLookup kvs "homework_name") = false →
      pyLookup kvs "status" = some (PyVal.pyStr s) → s ≠ "" →
      lookupStr HOMEWORK_VERDICTS s = none →
      parse_status (PyVal.pyDict kvs) =
        Except.error (Err.homeworkStatusError "Неизвестный статус проверки работы")) ∧
    (∀ s, (lookupStr HOMEWORK_VERDICTS s).isSome = true ↔
      (s = "approved" ∨ s = "reviewing" ∨ s = "rejected")) ∧
    (∀ m1 m2, Err.homeworkStatusError m1 ≠ Err.keyError m2) := by
  refine ⟨?_, ?_, ?_, ?_, ?_⟩
  · intro h
    simp [parse_status, h]
  · intro h1 h2
    simp [parse_status, h1, h2]
  · intro s h1 hs hne hlk
    simp only [parse_status]
    rw [h1, hs]
    simp [optFalsy, pyFalsy, hne, verdictLookup, hlk, optStrFalsy]
  · intro s
    constructor
    · intro h
      simp only [HOMEWORK_VERDICTS, lookupStr] at h
      by_cases h1 : "approved" = s
      · exact Or.inl h1.symm
      · rw [if_neg h1] at h
        by_cases h2 : "reviewing" = s
        · exact Or.inr (Or.inl h2.symm)
        · rw [if_neg h2] at h
          by_cases h3 : "rejected" = s
          · exact Or.inr (Or.inr h3.symm)
          · rw [if_neg h3] at h
            exact Bool.noConfusion h
    · intro h
      rcases h with h | h | h <;> subst h <;> rfl
  · intro m1 m2 h
    cases h

/-- Witness for C5 at a concrete input: an unrecognized string status
fails with the unknown-status condition. -/
theorem parse_status_error_conditions_witness :
    parse_status (PyVal.pyDict
        [("homework_name", PyVal.pyStr "hw1"), ("status", PyVal.pyStr "unknown_status")]) =
      Except.error (Err.homeworkStatusError "Неизвестный статус проверки работы") :=
  (parse_status_error_conditions _).2.2.1 "unknown_status" rfl rfl (by decide) rfl

/-- Claim C6: on a record with a non-empty string `homework_name` and a
`status` that is a key of the verdict table, `parse_status` succeeds and
returns the formatted notification, which contains both the homework
name and the mapped verdict text as substrings. -/
theorem parse_status_success (kvs : List (String × PyVal)) (name s verdict : String)
    (hn : pyLookup kvs "homework_name" = some (PyVal.pyStr name)) (hname : name ≠ "")
    (hs : pyLookup kvs "status" = some (PyVal.pyStr s))
    (hv : lookupStr HOMEWORK_VERDICTS s = some verdict) :
    parse_status (PyVal.pyDict kvs) =
      Except.ok ("Изменился статус проверки работы \"" ++ name ++ "\". " ++ verdict) ∧
    (∃ p q, "Изменился статус проверки работы \"" ++ name ++ "\". " ++ verdict =
      p ++ name ++ q) ∧
    (∃ p q, "Изменился статус проверки работы \"" ++ name ++ "\". " ++ verdict =
      p ++ verdict ++ q) := by
  refine ⟨?_, ?_, ?_⟩
  · have hkey : s = "approved" ∨ s = "reviewing" ∨ s = "rejected" := by
      by_cases h1 : "approved" = s
      · exact Or.inl h1.symm
      · by_cases h2 : "reviewing" = s
        · exact Or.inr (Or.inl h2.symm)
        · by_cases h3 : "rejected" = s
          · exact Or.inr (Or.inr h3.symm)
          · simp only [HOMEWORK_VERDICTS, lookupStr, if_neg h1, if_neg h2, if_neg h3] at hv
            cases hv
    have hsne : s ≠ "" := by
      rcases hkey with h | h | h <;> subst h <;> decide
    simp only [parse_status]
    rw [hn, hs]
    have hvne : verdict.isEmpty = false := by
      rcases hkey with h | h | h <;> subst h <;>
        (injection hv with hv; rw [← hv]; rfl)
    simp [optFalsy, pyFalsy, hname, hsne, verdictLookup, hv, optStrFalsy, hvne, pyToStr]
  · exact ⟨"Изменился статус проверки работы \"", "\". " ++ verdict,
      String.append_assoc _ _ _⟩
  · exact ⟨"Изменился статус проверки работы \"" ++ name ++ "\". ", "",
      (String.append_empty _).symm⟩

/-- Witness for C6 at the spec's concrete input: the record
`{"homework_name": "hw1", "status": "approved"}` yields the notification
embedding both the name and the approved verdict. -/
theorem parse_status_success_witness :
    parse_status (PyVal.pyDict
        [("homework_name", PyVal.pyStr "hw1"), ("status", PyVal.pyStr "approved")]) =
      Except.ok ("Изменился статус проверки работы \"" ++ "hw1" ++ "\". " ++
        "Работа проверена: ревьюеру всё понравилось. Ура!") :=
  (parse_status_success [("homework_name", PyVal.pyStr "hw1"), ("status", PyVal.pyStr "approved")]
    "hw1" "approved" "Работа проверена: ревьюеру всё понравилось. Ура!"
    rfl (by decide) rfl rfl).1

/-- Claim C7: `check_tokens` reports exactly the credential names whose
values are falsy (absent or empty); when all three are truthy it reports
none.  It is a total function, so no exception is possible. -/
theorem check_tokens_spec (p t c : Option String) :
    (∀ name, name ∈ missingNames (check_tokens p t c) ↔
      ((name = "PRACTICUM_TOKEN" ∧ envFalsy p = true) ∨
       (name = "TELEGRAM_TOKEN" ∧ envFalsy t = true) ∨
       (name = "TELEGRAM_CHAT_ID" ∧ envFalsy c = true))) ∧
    (envFalsy p = false → envFalsy t = false → envFalsy c = false →
      check_tokens p t c = none) := by
  cases hp : envFalsy p <;> cases ht : envFalsy t <;> cases hc : envFalsy c <;>
    refine ⟨fun name => ?_, fun h1 h2 h3 => ?_⟩ <;>
      simp_all [check_tokens, missingNames, List.filter]

/-- Witness for C7 at concrete inputs: all three secrets present yields
no missing names, and a missing middle secret is reported by name. -/
theorem check_tokens_spec_witness :
    check_tokens (some "a") (some "b") (some "c") = none ∧
    ("TELEGRAM_TOKEN" ∈ missingNames (check_tokens (some "a") none (some "c"))) :=
  ⟨(check_tokens_spec (some "a") (some "b") (some "c")).2 rfl rfl rfl,
   ((check_tokens_spec (some "a") none (some "c")).1 "TELEGRAM_TOKEN").mpr
     (Or.inr (Or.inl ⟨rfl, rfl⟩))⟩

/-- Claim C8: `get_api_answer` fails with the request-failed condition
(`URLError`) on a non-success HTTP status, fails with the distinct
connection-failed condition (`ConnectionError`) on a transport-level
failure, and on success returns the parsed JSON body unvalidated.  The
two failure conditions are distinguishable. -/
theorem get_api_answer_spec (ts : PyVal) (o : HttpOutcome) :
    (o.transportFailure = true →
      get_api_answer ts o = Except.error (Err.connectionError
        ("Сбой запроса к " ++ ENDPOINT ++ " c " ++ paramsStr ts))) ∧
    (o.transportFailure = false → o.statusCode ≠ 200 →
      get_api_answer ts o =
        Except.error (Err.urlError ("Сбой запроса к " ++ ENDPOINT))) ∧
    (o.transportFailure = false → o.statusCode = 200 →
      get_api_answer ts o = Except.ok o.body) ∧
    (∀ m1 m2, Err.connectionError m1 ≠ Err.urlError m2) := by
  refine ⟨?_, ?_, ?_, ?_⟩
  · intro h
    simp [get_api_answer, h]
  · intro h1 h2
    simp [get_api_answer, h1, h2]
  · intro h1 h2
    simp [get_api_answer, h1, h2]
  · intro m1 m2 h
    cases h

/-- Witness for C8 at concrete inputs: a transport failure at timestamp 0
yields the connection-failed condition. -/
theorem get_api_answer_spec_witness :
    get_api_answer (PyVal.pyInt 0) ⟨true, 200, PyVal.pyNone⟩ =
      Except.error (Err.connectionError
        ("Сбой запроса к " ++ ENDPOINT ++ " c " ++ paramsStr (PyVal.pyInt 0))) :=
  (get_api_answer_spec (PyVal.pyInt 0) ⟨true, 200, PyVal.pyNone⟩).1 rfl

/-- Claim C9: `send_message` never propagates a delivery failure of the
messaging client to its caller, makes exactly one delivery attempt (no
retry), and logs a failed delivery. -/
theorem send_message_never_raises (m : String) (d : Except TelegramError Unit) :
    (send_message m d).propagated = none ∧
    (send_message m d).attempts = 1 ∧
    (∀ e, d = Except.error e →
      "Ошибка отправки сообщения" ∈ (send_message m d).logLines ∧
      (send_message m d).delivered = none) := by
  cases d <;> simp [send_message]

/-- Witness for C9 at concrete inputs: a failing delivery is swallowed
and logged. -/
theorem send_message_never_raises_witness :
    (send_message "hi" (Except.error (TelegramError.mk "network"))).propagated = none ∧
    "Ошибка отправки сообщения" ∈
      (send_message "hi" (Except.error (TelegramError.mk "network"))).logLines :=
  ⟨(send_message_never_raises "hi" (Except.error (TelegramError.mk "network"))).1,
   ((send_message_never_raises "hi" (Except.error (TelegramError.mk "network"))).2.2
     (TelegramError.mk "network") rfl).1⟩

/-- Claim C10: `check_response` accepts any value at `current_date` (its
type is never checked) as long as `homeworks` is a list, and on the empty
homeworks branch the loop stores that value in the cursor, so the next
request's `from_date` parameter carries it. -/
theorem current_date_unvalidated (kvs : List (String × PyVal)) (l : List PyVal) (v : PyVal)
    (st : LoopState)
    (hh : pyLookup kvs "homeworks" = some (PyVal.pyList l))
    (hc : pyLookup kvs "current_date" = some v) :
    check_response (PyVal.pyDict kvs) = Except.ok l ∧
    (l = [] →
      iterate st (Except.ok (PyVal.pyDict kvs)) = ({ st with timestamp := v }, []) ∧
      requestParams (iterate st (Except.ok (PyVal.pyDict kvs))).1.timestamp =
        [("from_date", v)]) := by
  have hcheck : check_response (PyVal.pyDict kvs) = Except.ok l := by
    simp [check_response, hh, hc]
  refine ⟨hcheck, fun hl => ?_⟩
  subst hl
  have htb : tryBody (Except.ok (PyVal.pyDict kvs)) = Except.ok (v, []) := by
    simp [tryBody, hcheck, statusNotifs, cursorOf, hc]
  constructor
  · simp [iterate, htb]
  · simp [iterate, htb, requestParams]

/-- Witness for C10 at concrete inputs: a string `current_date` passes
validation and ends up as the cursor and in the next request's
parameters. -/
theorem current_date_unvalidated_witness :
    check_response (PyVal.pyDict
        [("homeworks", PyVal.pyList []), ("current_date", PyVal.pyStr "oops")]) =
      Except.ok [] ∧
    iterate ⟨PyVal.pyInt 0, ""⟩ (Except.ok (PyVal.pyDict
        [("homeworks", PyVal.pyList []), ("current_date", PyVal.pyStr "oops")])) =
      (⟨PyVal.pyStr "oops", ""⟩, []) ∧
    requestParams (PyVal.pyStr "oops") = [("from_date", PyVal.pyStr "oops")] :=
  ⟨(current_date_unvalidated
      [("homeworks", PyVal.pyList []), ("current_date", PyVal.pyStr "oops")]
      [] (PyVal.pyStr "oops") ⟨PyVal.pyInt 0, ""⟩ rfl rfl).1,
   ((current_date_unvalidated
      [("homeworks", PyVal.pyList []), ("current_date", PyVal.pyStr "oops")]
      [] (PyVal.pyStr "oops") ⟨PyVal.pyInt 0, ""⟩ rfl rfl).2 rfl).1,
   rfl⟩

/-- Counterexample to C1 as stated: a response whose request and
validation both succeed (`current_date = 2`, one homework record) but
whose record carries the unrecognized status `"weird"` makes
`parse_status` raise, and the iteration leaves the cursor at its old
value `1` instead of advancing it to `2`. -/
theorem main_cursor_advance_counterexample :
    check_response (PyVal.pyDict
        [("homeworks", PyVal.pyList
            [PyVal.pyDict [("homework_name", PyVal.pyStr "hw1"), ("status", PyVal.pyStr "weird")]]),
         ("current_date", PyVal.pyInt 2)]) =
      Except.ok [PyVal.pyDict [("homework_name", PyVal.pyStr "hw1"), ("status", PyVal.pyStr "weird")]] ∧
    (iterate ⟨PyVal.pyInt 1, ""⟩ (Except.ok (PyVal.pyDict
        [("homeworks", PyVal.pyList
            [PyVal.pyDict [("homework_name", PyVal.pyStr "hw1"), ("status", PyVal.pyStr "weird")]]),
         ("current_date", PyVal.pyInt 2)]))).1.timestamp = PyVal.pyInt 1 ∧
    PyVal.pyInt 1 ≠ PyVal.pyInt 2 := by
  refine ⟨rfl, rfl, ?_⟩
  intro h
  injection h with h
  exact absurd h (by decide)

/-- Claim C1 (amended): in an iteration whose request and validation
succeed, the cursor is advanced to the response's `current_date` when the
homeworks list is empty (no notification sent) and when parsing of the
first record succeeds (exactly one status notification sent in the same
iteration); when parsing of the first record raises, the cursor is not
advanced. -/
theorem main_cursor_advance (st : LoopState) (resp : PyVal) (hws : List PyVal) (cd : PyVal)
    (hcheck : check_response resp = Except.ok hws)
    (hcd : cursorOf resp = Except.ok cd) :
    (hws = [] → iterate st (Except.ok resp) = ({ st with timestamp := cd }, [])) ∧
    (∀ h rest s, hws = h :: rest → parse_status h = Except.ok s →
      iterate st (Except.ok resp) = ({ st with timestamp := cd }, [Notif.status s])) ∧
    (∀ h rest e, hws = h :: rest → parse_status h = Except.error e →
      (iterate st (Except.ok resp)).1.timestamp = st.timestamp) := by
  refine ⟨?_, ?_, ?_⟩
  · intro hl
    subst hl
    have htb : tryBody (Except.ok resp) = Except.ok (cd, []) := by
      simp [tryBody, hcheck, statusNotifs, hcd]
    simp [iterate, htb]
  · intro h rest s hhw hp
    subst hhw
    have htb : tryBody (Except.ok resp) = Except.ok (cd, [Notif.status s]) := by
      simp [tryBody, hcheck, statusNotifs, hcd, hp]
    simp [iterate, htb]
  · intro h rest e hhw hp
    subst hhw
    have htb : tryBody (Except.ok resp) = Except.error e := by
      simp [tryBody, hcheck, statusNotifs, hp]
    unfold iterate
    rw [htb]
    dsimp only
    split <;> rfl

/-- Witness for C1 at concrete inputs: an empty homeworks list with
`current_date = 7` advances the cursor from 0 to 7 and sends nothing. -/
theorem main_cursor_advance_witness :
    iterate ⟨PyVal.pyInt 0, ""⟩ (Except.ok (PyVal.pyDict
        [("homeworks", PyVal.pyList []), ("current_date", PyVal.pyInt 7)])) =
      (⟨PyVal.pyInt 7, ""⟩, []) :=
  (main_cursor_advance ⟨PyVal.pyInt 0, ""⟩
      (PyVal.pyDict [("homeworks", PyVal.pyList []), ("current_date", PyVal.pyInt 7)])
      [] (PyVal.pyInt 7) rfl rfl).1 rfl

/-- Claim C2: error-notification deduplication of the poll loop.  In any
run, no two consecutive error notifications carry identical text; two
consecutive failing iterations with the same handler message (the first
one fresh) notify exactly once; and when the second failing iteration's
message differs from the first's, the second iteration notifies again. -/
theorem main_error_dedup (st : LoopState) :
    (∀ apis : List (Except Err PyVal),
      List.Chain' (fun a b => a ≠ b) (errorTexts (runLoop st apis).2)) ∧
    (∀ a1 a2 m, bodyErrMsg a1 = some m → bodyErrMsg a2 = some m → st.lastError ≠ m →
      errorTexts (runLoop st [a1, a2]).2 = [m]) ∧
    (∀ a1 a2 m1 m2, bodyErrMsg a1 = some m1 → bodyErrMsg a2 = some m2 → m1 ≠ m2 →
      (iterate (iterate st a1).1 a2).2 = [Notif.error m2]) := by
  refine ⟨?_, ?_, ?_⟩
  · intro apis
    have h := (runLoop_chain apis st).1
    exact (show List.Chain' (fun a b => a ≠ b)
      (st.lastError :: errorTexts (runLoop st apis).2) from h).tail
  · intro a1 a2 m h1 h2 hne
    have hi1 : iterate st a1 = (⟨st.timestamp, m⟩, [Notif.error m]) :=
      iterate_fail_new st a1 m h1 hne
    have hi2 : iterate (⟨st.timestamp, m⟩ : LoopState) a2 = (⟨st.timestamp, m⟩, []) :=
      iterate_fail_dup ⟨st.timestamp, m⟩ a2 m h2 rfl
    show errorTexts ((iterate st a1).2 ++
      ((iterate (iterate st a1).1 a2).2 ++ (runLoop (iterate (iterate st a1).1 a2).1 []).2)) = [m]
    rw [hi1]
    dsimp only
    rw [hi2]
    rfl
  · intro a1 a2 m1 m2 h1 h2 hne
    have hl1 : (iterate st a1).1.lastError = m1 := iterate_fail_lastError st a1 m1 h1
    have hne2 : (iterate st a1).1.lastError ≠ m2 := by
      rw [hl1]
      exact hne
    rw [iterate_fail_new (iterate st a1).1 a2 m2 h2 hne2]

/-- Witness for C2 at concrete inputs: two iterations both failing with
the same connection error from a fresh state notify exactly once. -/
theorem main_error_dedup_witness :
    errorTexts (runLoop ⟨PyVal.pyInt 0, ""⟩
        [Except.error (Err.connectionError "boom"), Except.error (Err.connectionError "boom")]).2 =
      ["Сбой в работе программы: boom"] :=
  (main_error_dedup ⟨PyVal.pyInt 0, ""⟩).2.1
    (Except.error (Err.connectionError "boom")) (Except.error (Err.connectionError "boom"))
    "Сбой в работе программы: boom" rfl rfl (by decide)

/-- Counterexample to C3 as stated: when the request step raises a
connection error, the loop body's raised condition is that very error —
not an unbound-reference (`NameError`) condition — and the iteration
completes normally through the handler with the cursor unchanged. -/
theorem request_failure_unbound_counterexample :
    tryBody (Except.error (Err.connectionError "boom")) =
      Except.error (Err.connectionError "boom") ∧
    Err.isNameError (Err.connectionError "boom") = false ∧
    iterate ⟨PyVal.pyInt 5, ""⟩ (Except.error (Err.connectionError "boom")) =
      (⟨PyVal.pyInt 5, "Сбой в работе программы: boom"⟩,
       [Notif.error "Сбой в работе программы: boom"]) := by
  refine ⟨rfl, rfl, ?_⟩
  rfl

/-- Claim C3 (amended): when the request step raises, the `try` block
re-raises exactly that exception (the cursor-advance statement, lying
after it inside the `try`, is never reached), the cursor is left
unchanged, and the iteration ends in the dedup handler, sending either
nothing or one error notification carrying the request error's text. -/
theorem request_failure_handled (st : LoopState) (e : Err) :
    tryBody (Except.error e) = Except.error e ∧
    (iterate st (Except.error e)).1.timestamp = st.timestamp ∧
    ((iterate st (Except.error e)).2 = [] ∨
      (iterate st (Except.error e)).2 =
        [Notif.error ("Сбой в работе программы: " ++ errStr e)]) := by
  refine ⟨rfl, ?_, ?_⟩
  · unfold iterate
    simp only [tryBody]
    split <;> rfl
  · unfold iterate
    simp only [tryBody]
    split
    · exact Or.inr rfl
    · exact Or.inl rfl

end Homework
